import Mathlib

/-!
Verification development for the AIReportGeneratorBackend repository.

The Python backend (FastAPI + PyJWT + SQLAlchemy + OpenAI client) is shallowly
embedded: pure functions become Lean functions, the database and the filesystem
become explicit state (`AppState`), machine-level concerns (bcrypt hashing, the
network call to the provider, PDF rendering I/O) become oracle parameters, and
Python exceptions escaping a handler become explicit error values.

Sources embedded here: `backend/auth.py`, `backend/ai_service.py`,
`backend/models.py`, `backend/main.py`.  Two collaborators imported by
`main.py` (`database.py` providing the SQLAlchemy session and
`pdf_generator.py` providing `PDFGenerator.create_report`) are not part of the
repository snapshot; where their behaviour decides a property they are
modelled from the specification and marked `Modelled from the spec:` in the
doc comment.
-/

/-! ### Model of CPython `str` on `int`, and `int` on `str`

The module `auth.py` stores `str(user_id)` under the `sub` claim of the JWT
payload and recovers it with `int` applied to that claim.  The module
`main.py` formats timestamps with `strftime`.  Both
rely on CPython decimal formatting / parsing of integers, modelled here
executably.  (CPython `int()` additionally accepts surrounding whitespace, a
`+` sign and `_` digit separators; none of those strings are produced by the
code nor needed for any counterexample, so the model keeps the core grammar:
optional `-`, then one or more decimal digits.) -/

/-- Fuel-driven structural recursion behind `natDigitsRev` (the fuel keeps the
definition reducible inside the kernel; `natDigitsRev` supplies fuel `n`,
always enough since the digit count of `n` is at most `n`). -/
def natDigitsRevAux (fuel n : Nat) : List Nat :=
  match fuel with
  | 0 => [n]
  | f + 1 => if n < 10 then [n] else n % 10 :: natDigitsRevAux f (n / 10)

/-- Little-endian list of decimal digits of `n` (CPython `str` digit sequence,
reversed).  `natDigitsRev 0 = [0]`, matching `str(0) = "0"`. -/
def natDigitsRev (n : Nat) : List Nat :=
  natDigitsRevAux n n

theorem natDigitsRevAux_congr :
    ∀ f₁ f₂ n, n ≤ f₁ → n ≤ f₂ → natDigitsRevAux f₁ n = natDigitsRevAux f₂ n := by
  intro f₁
  induction f₁ with
  | zero =>
    intro f₂ n h₁ _
    have hn : n = 0 := by omega
    subst hn
    cases f₂ <;> simp [natDigitsRevAux]
  | succ f ih =>
    intro f₂ n h₁ h₂
    cases f₂ with
    | zero =>
      have hn : n = 0 := by omega
      subst hn
      simp [natDigitsRevAux]
    | succ g =>
      simp only [natDigitsRevAux]
      split
      · rfl
      · rename_i hn
        have hdiv : n / 10 < n := Nat.div_lt_self (by omega) (by omega)
        rw [ih g (n / 10) (by omega) (by omega)]

/-- The defining recurrence of `natDigitsRev`. -/
theorem natDigitsRev_eq (n : Nat) :
    natDigitsRev n = if n < 10 then [n] else n % 10 :: natDigitsRev (n / 10) := by
  unfold natDigitsRev
  cases n with
  | zero => simp [natDigitsRevAux]
  | succ m =>
    simp only [natDigitsRevAux]
    split
    · rfl
    · rename_i hn
      have hdiv : (m + 1) / 10 < m + 1 := Nat.div_lt_self (by omega) (by omega)
      rw [natDigitsRevAux_congr m ((m + 1) / 10) ((m + 1) / 10) (by omega) (by omega)]

/-- CPython `str` on a nonnegative integer: big-endian decimal digit string. -/
def pyStrOfNat (n : Nat) : String :=
  ⟨((natDigitsRev n).map Nat.digitChar).reverse⟩

/-- CPython `str` on an `int`: optional minus sign, then decimal digits. -/
def pyStrOfInt (i : Int) : String :=
  if i < 0 then "-" ++ pyStrOfNat i.natAbs else pyStrOfNat i.natAbs

/-- Value of one decimal digit character, `none` on a non-digit. -/
def digitVal (c : Char) : Option Nat :=
  if c.isDigit then some (c.toNat - 48) else none

/-- Accumulator pass over a big-endian digit-character list. -/
def parseDigitsAux : List Char → Nat → Option Nat
  | [], acc => some acc
  | c :: cs, acc =>
    match digitVal c with
    | some d => parseDigitsAux cs (acc * 10 + d)
    | none => none

/-- Character-list form of CPython `int(s)`. -/
def pyIntOfChars? : List Char → Option Int
  | [] => none
  | c :: cs =>
    if c = '-' then
      if cs = [] then none
      else
        match parseDigitsAux cs 0 with
        | some m => some (-(m : Int))
        | none => none
    else
      match parseDigitsAux (c :: cs) 0 with
      | some m => some ((m : Int))
      | none => none

/-- CPython `int(s)`: `some` of the parsed value on an optional minus sign
followed by one or more decimal digits, `none` (a `ValueError`) otherwise. -/
def pyIntOfStr? (s : String) : Option Int :=
  pyIntOfChars? s.data

theorem natDigitsRev_ne_nil (n : Nat) : natDigitsRev n ≠ [] := by
  rw [natDigitsRev_eq]
  split <;> simp

theorem natDigitsRev_lt (n : Nat) : ∀ d ∈ natDigitsRev n, d < 10 := by
  induction n using Nat.strong_induction_on with
  | _ n ih =>
    rw [natDigitsRev_eq]
    split
    · intro d hd
      simp only [List.mem_singleton] at hd
      omega
    · intro d hd
      rcases List.mem_cons.mp hd with h | h
      · omega
      · exact ih (n / 10) (Nat.div_lt_self (by omega) (by omega)) d h

theorem digitVal_digitChar : ∀ d < 10, digitVal (Nat.digitChar d) = some d := by
  decide

theorem parseDigitsAux_append (l₁ l₂ : List Char) : ∀ acc : Nat,
    parseDigitsAux (l₁ ++ l₂) acc =
      match parseDigitsAux l₁ acc with
      | some a => parseDigitsAux l₂ a
      | none => none := by
  induction l₁ with
  | nil => intro acc; rfl
  | cons c cs ih =>
    intro acc
    simp only [List.cons_append, parseDigitsAux]
    cases digitVal c with
    | none => rfl
    | some d => exact ih (acc * 10 + d)

theorem digitChar_isDigit : ∀ d < 10, (Nat.digitChar d).isDigit = true := by
  decide

theorem parseDigitsAux_digits (n : Nat) : ∀ acc : Nat,
    parseDigitsAux ((natDigitsRev n).map Nat.digitChar).reverse acc =
      some (acc * 10 ^ (natDigitsRev n).length + n) := by
  induction n using Nat.strong_induction_on with
  | _ n ih =>
    intro acc
    rw [natDigitsRev_eq]
    split
    · simp only [List.map_cons, List.map_nil, List.reverse_singleton,
        List.length_singleton, parseDigitsAux, digitVal_digitChar n (by omega)]
      simp [pow_one]
    · rename_i hn
      simp only [List.map_cons, List.reverse_cons, List.length_cons]
      rw [parseDigitsAux_append]
      rw [ih (n / 10) (Nat.div_lt_self (by omega) (by omega)) acc]
      simp only [parseDigitsAux, digitVal_digitChar (n % 10) (Nat.mod_lt n (by omega))]
      congr 1
      rw [pow_succ, ← mul_assoc]
      generalize acc * 10 ^ (natDigitsRev (n / 10)).length = m
      omega

theorem parse_pyStrOfNat (n : Nat) : parseDigitsAux (pyStrOfNat n).data 0 = some n := by
  have := parseDigitsAux_digits n 0
  simpa [pyStrOfNat] using this

theorem pyStrOfNat_data_digits (n : Nat) :
    ∀ c ∈ (pyStrOfNat n).data, c.isDigit = true := by
  intro c hc
  simp only [pyStrOfNat, List.mem_reverse, List.mem_map] at hc
  obtain ⟨d, hd, rfl⟩ := hc
  exact digitChar_isDigit d (natDigitsRev_lt n d hd)

theorem pyStrOfNat_data_ne_nil (n : Nat) : (pyStrOfNat n).data ≠ [] := by
  simp [pyStrOfNat, natDigitsRev_ne_nil n]

/-- CPython round trip: `int(str(i)) = i`. -/
theorem pyIntOfStr_pyStrOfInt (i : Int) : pyIntOfStr? (pyStrOfInt i) = some i := by
  by_cases hneg : i < 0
  · simp only [pyStrOfInt, if_pos hneg, pyIntOfStr?, String.data_append]
    rw [List.singleton_append]
    have hne := pyStrOfNat_data_ne_nil i.natAbs
    simp only [pyIntOfChars?]
    rw [if_pos trivial, if_neg hne, parse_pyStrOfNat]
    show some (-(i.natAbs : Int)) = some i
    congr 1
    omega
  · simp only [pyStrOfInt, if_neg hneg, pyIntOfStr?]
    obtain ⟨c, cs, hdat⟩ : ∃ c cs, (pyStrOfNat i.natAbs).data = c :: cs := by
      cases h : (pyStrOfNat i.natAbs).data with
      | nil => exact absurd h (pyStrOfNat_data_ne_nil _)
      | cons c cs => exact ⟨c, cs, rfl⟩
    have hc : c.isDigit = true := by
      apply pyStrOfNat_data_digits i.natAbs
      rw [hdat]; exact List.mem_cons_self ..
    have hcne : ¬ c = '-' := by
      intro h
      rw [h] at hc
      exact absurd hc (by decide)
    rw [hdat]
    simp only [pyIntOfChars?]
    rw [if_neg hcne, ← hdat, parse_pyStrOfNat]
    show some ((i.natAbs : Int)) = some i
    congr 1
    omega

/-! ### Token Service (`backend/auth.py`)

`AuthHandler.encode_token` signs a payload carrying `exp` (utcnow plus 30
minutes), `iat` (utcnow) and `sub` (`str(user_id)`) with the process-wide
`SECRET_KEY` (HS256).  `AuthHandler.decode_token` runs `jwt.decode` and then
`int` on the `sub` claim
inside a `try` whose `except` clauses cover `jwt.ExpiredSignatureError` and
`jwt.InvalidTokenError` only.  Times are POSIX seconds (`Nat`); the signing
secret is a parameter (`SECRET_KEY` is read from the environment once). -/

/-- JWT claim set built by `encode_token`: `exp`, `iat`, and the subject
string. -/
structure JwtPayload where
  exp : Nat
  iat : Nat
  sub : String
deriving DecidableEq

/-- A string handed to `decode_token`, as PyJWT classifies it: a structurally
valid JWT carrying a claim set and the secret that signed it, or anything
else. -/
inductive TokenStr where
  | signed (payload : JwtPayload) (secret : String)
  | malformed (raw : String)
deriving DecidableEq

/-- A Python exception escaping a function (one no `except` clause catches). -/
inductive PyError where
  | valueError (invalidLiteral : String)
deriving DecidableEq

/-- Constant `ACCESS_TOKEN_EXPIRE_MINUTES` from `auth.py`. -/
def ACCESS_TOKEN_EXPIRE_MINUTES : Nat := 30

/-- Function `AuthHandler.encode_token` of `auth.py`: a JWT whose payload
carries `exp = now + 30 minutes`, `iat = now` and `sub = str(user_id)`,
signed with the process secret. -/
def encode_token (secretKey : String) (user_id : Int) (now : Nat) : TokenStr :=
  .signed ⟨now + ACCESS_TOKEN_EXPIRE_MINUTES * 60, now, pyStrOfInt user_id⟩ secretKey

/-- Result of `jwt.decode(token, key, algorithms=[HS256])`, errors as values:
`invalidToken` for a malformed token or signature mismatch,
`expiredSignature` when `exp < now` (leeway 0), the claim set otherwise. -/
inductive JwtDecodeResult where
  | ok (payload : JwtPayload)
  | expiredSignature
  | invalidToken
deriving DecidableEq

/-- PyJWT `jwt.decode` against key `key` at time `now`. -/
def jwtDecode (tok : TokenStr) (key : String) (now : Nat) : JwtDecodeResult :=
  match tok with
  | .malformed _ => .invalidToken
  | .signed p s =>
    if s ≠ key then .invalidToken
    else if p.exp < now then .expiredSignature
    else .ok p

/-- Function `AuthHandler.decode_token` of `auth.py`: `jwt.decode`, then
`int` on the `sub` claim.  The two `except` clauses turn `ExpiredSignatureError`
and `InvalidTokenError` into `None`; the `ValueError` that `int()` raises on a
non-integer subject string is caught by neither clause and escapes. -/
def decode_token (secretKey : String) (now : Nat) (tok : TokenStr) :
    Except PyError (Option Int) :=
  match jwtDecode tok secretKey now with
  | .invalidToken => .ok none
  | .expiredSignature => .ok none
  | .ok p =>
    match pyIntOfStr? p.sub with
    | some n => .ok (some n)
    | none => .error (.valueError p.sub)

/-- C2 counterexample: a structurally valid, correctly signed, unexpired JWT
whose subject claim is not an integer string makes `decode_token` raise an
uncaught `ValueError` (from `int` on the `sub` claim) instead of returning the
`None` sentinel — validation does not "never throw" on every input. -/
theorem decode_token_raises_on_non_integer_subject :
    decode_token "your-secret-key-here-change-in-production" 0
      (.signed ⟨1800, 0, "abc"⟩ "your-secret-key-here-change-in-production") =
      .error (.valueError "abc") := by
  rfl

/-- C2 (amended): for every failure cause the claim lists — malformed token,
token signed with a different secret, expired token — validation returns the
single invalid sentinel (`None`) without raising, so those causes are
indistinguishable to callers; and a correctly signed, unexpired token whose
subject parses as an integer validates to that embedded identifier.  (Only a
correctly signed unexpired token with a non-integer subject — never produced
by `encode_token` — escapes with an error.) -/
theorem decode_token_sentinel_on_failures (key : String) (now : Nat) (tok : TokenStr) :
    (((∃ raw, tok = .malformed raw) ∨
      (∃ p s, tok = .signed p s ∧ s ≠ key) ∨
      (∃ p, tok = .signed p key ∧ p.exp < now)) →
        decode_token key now tok = .ok none) ∧
    (∀ p, tok = .signed p key → ¬ p.exp < now →
      ∀ n, pyIntOfStr? p.sub = some n →
        decode_token key now tok = .ok (some n)) := by
  constructor
  · rintro (⟨raw, rfl⟩ | ⟨p, s, rfl, hs⟩ | ⟨p, rfl, hexp⟩)
    · rfl
    · simp [decode_token, jwtDecode, hs]
    · simp [decode_token, jwtDecode, hexp]
  · rintro p rfl hexp n hsub
    simp [decode_token, jwtDecode, hexp, hsub]

/-- C2 witness: the amended theorem applied to a malformed token, to a
wrong-secret token, to an expired token, and to a freshly issued token. -/
theorem decode_token_sentinel_on_failures_witness :
    decode_token "k" 10 (.malformed "zzz") = .ok none ∧
    decode_token "k" 10 (.signed ⟨1800, 0, "7"⟩ "other") = .ok none ∧
    decode_token "k" 9999 (.signed ⟨1800, 0, "7"⟩ "k") = .ok none ∧
    decode_token "k" 10 (.signed ⟨1800, 0, "7"⟩ "k") = .ok (some 7) :=
  ⟨(decode_token_sentinel_on_failures "k" 10 (.malformed "zzz")).1
      (Or.inl ⟨"zzz", rfl⟩),
   (decode_token_sentinel_on_failures "k" 10 (.signed ⟨1800, 0, "7"⟩ "other")).1
      (Or.inr (Or.inl ⟨⟨1800, 0, "7"⟩, "other", rfl, by decide⟩)),
   (decode_token_sentinel_on_failures "k" 9999 (.signed ⟨1800, 0, "7"⟩ "k")).1
      (Or.inr (Or.inr ⟨⟨1800, 0, "7"⟩, rfl, by decide⟩)),
   (decode_token_sentinel_on_failures "k" 10 (.signed ⟨1800, 0, "7"⟩ "k")).2
      ⟨1800, 0, "7"⟩ rfl (by decide) 7 (by decide)⟩

/-- C5: a token issued for identifier `uid` at time `t` embeds `uid` (as
`str(uid)`), `iat = t` and `exp = t + 30 minutes`; validating it at any time
up to the expiry returns `uid`, and validating it after the expiry has elapsed
returns the invalid sentinel. -/
theorem encode_token_roundtrip (key : String) (uid : Int) (t tv : Nat) :
    encode_token key uid t =
      .signed ⟨t + 30 * 60, t, pyStrOfInt uid⟩ key ∧
    (tv ≤ t + 30 * 60 →
      decode_token key tv (encode_token key uid t) = .ok (some uid)) ∧
    (t + 30 * 60 < tv →
      decode_token key tv (encode_token key uid t) = .ok none) := by
  refine ⟨rfl, ?_, ?_⟩
  · intro hv
    have hexp : ¬ (t + ACCESS_TOKEN_EXPIRE_MINUTES * 60 < tv) := by
      simp only [ACCESS_TOKEN_EXPIRE_MINUTES]; omega
    simp [decode_token, jwtDecode, encode_token, hexp, pyIntOfStr_pyStrOfInt uid]
  · intro hv
    have hexp : t + ACCESS_TOKEN_EXPIRE_MINUTES * 60 < tv := by
      simp only [ACCESS_TOKEN_EXPIRE_MINUTES]; omega
    simp [decode_token, jwtDecode, encode_token, hexp]

/-- C5 witness: a token issued for user 42 at time 0 validates to 42 at time
100 and to the sentinel at time 2000. -/
theorem encode_token_roundtrip_witness :
    encode_token "k" 42 0 = .signed ⟨0 + 30 * 60, 0, pyStrOfInt 42⟩ "k" ∧
    decode_token "k" 100 (encode_token "k" 42 0) = .ok (some 42) ∧
    decode_token "k" 2000 (encode_token "k" 42 0) = .ok none :=
  ⟨(encode_token_roundtrip "k" 42 0 100).1,
   (encode_token_roundtrip "k" 42 0 100).2.1 (by decide),
   (encode_token_roundtrip "k" 42 0 2000).2.2 (by decide)⟩

/-! ### Content Provider (`backend/ai_service.py`)

`AIService.generate_report_content` tries the OpenAI chat-completions call
when a provider credential is configured and falls back to
`_generate_demo_content` otherwise or on failure.  The network interaction is
an oracle (`ApiOutcome`); the fixed prompt, model name, `max_tokens` and
`temperature` only shape that external call and are not otherwise observable.
The outer `try/except` around `_generate_with_openai` is modelled as
unreachable: the inner function already absorbs the API failure and the
remaining operations cannot raise. -/

/-- Python `str.strip()` whitespace characters (ASCII subset; the template and
all counterexamples use only these). -/
def pyIsSpace (c : Char) : Bool :=
  c = ' ' || c = '\t' || c = '\n' || c = '\r' || c = '\x0b' || c = '\x0c'

/-- Python `str.strip()`: remove leading and trailing whitespace. -/
def pyStrip (s : String) : String :=
  ⟨((s.data.dropWhile pyIsSpace).reverse.dropWhile pyIsSpace).reverse⟩

/-- State set up by `AIService.__init__`: the optional provider credential
(`OPENAI_API_KEY` from the environment) and the optional constructed client
(`None` when no key is configured or client construction failed). -/
structure AIService where
  openai_api_key : Option String
  client : Option Unit

/-- One observed interaction with the chat-completions endpoint: the call
raises, or returns with `response.choices[0].message.content` (which may be
`None`). -/
inductive ApiOutcome where
  | raises (msg : String)
  | returns (content : Option String)

/-- String `s` contains `t` as a contiguous substring. -/
def strContains (s t : String) : Prop :=
  ∃ a b : List Char, s.data = a ++ t.data ++ b

/-- The eight section headings of the demo template (also the eight sections
the OpenAI prompt requests), in order. -/
def demoSectionHeadings : List String :=
  ["Executive Summary",
   "Introduction and Background",
   "Current State Analysis",
   "Key Findings and Insights",
   "Challenges and Opportunities",
   "Future Trends and Predictions",
   "Recommendations",
   "Conclusion"]

/-- The eight section bodies of the f-string in
`AIService._generate_demo_content`, in order, with the topic interpolated. -/
def demoSectionBodies (topic : String) : List String :=
  ["This comprehensive report examines " ++ topic ++ " from multiple perspectives, providing insights into current trends, challenges, and future opportunities. Our analysis reveals significant developments in this field that warrant attention from stakeholders and decision-makers.",
   topic ++ " has emerged as a critical area of focus in today\x27s rapidly evolving landscape. Understanding its implications requires a thorough examination of historical context, current applications, and future potential. This report aims to provide a detailed analysis that can inform strategic decision-making.",
   "The current state of " ++ topic ++ " is characterized by rapid growth and innovation. Key players in the market are investing heavily in research and development, leading to breakthrough technologies and methodologies. Market adoption rates have shown consistent upward trends, indicating strong demand and acceptance.\n\nKey market indicators include:\n• Increased investment from venture capital and institutional investors\n• Growing number of specialized companies and startups\n• Expansion of use cases across various industries\n• Enhanced regulatory frameworks and standards",
   "Our research has identified several critical findings regarding " ++ topic ++ ":\n\n1. Market Growth: The sector has experienced unprecedented growth rates, with projections indicating continued expansion over the next five years.\n\n2. Technology Advancement: Significant technological breakthroughs have improved efficiency, accuracy, and accessibility.\n\n3. Industry Adoption: Major corporations across various sectors are implementing solutions related to " ++ topic ++ ", driving mainstream acceptance.\n\n4. Consumer Behavior: End-user preferences and behaviors are evolving, creating new opportunities for innovation and service delivery.",
   "While " ++ topic ++ " presents numerous opportunities, several challenges must be addressed:\n\nChallenges:\n• Regulatory uncertainty in some jurisdictions\n• Skills gap in the workforce\n• Infrastructure limitations\n• Privacy and security concerns\n• Cost barriers for smaller organizations\n\nOpportunities:\n• Emerging markets showing high growth potential\n• Cross-industry collaboration possibilities\n• Innovation in supporting technologies\n• Government initiatives and funding programs\n• Increasing consumer awareness and demand",
   "Based on current trajectories and expert analysis, we anticipate several key trends in " ++ topic ++ ":\n\n1. Increased Automation: Greater integration of automated systems and processes\n2. Enhanced User Experience: Focus on intuitive interfaces and user-centric design\n3. Sustainability Integration: Growing emphasis on environmental and social responsibility\n4. Global Standardization: Development of universal standards and protocols\n5. Democratization: Increased accessibility for smaller organizations and individuals",
   "Based on our analysis, we recommend the following strategic actions:\n\n1. Investment Strategy: Organizations should consider strategic investments in " ++ topic ++ " to maintain competitive advantage.\n\n2. Skill Development: Invest in training and development programs to build internal capabilities.\n\n3. Partnership Opportunities: Explore collaborative partnerships with technology providers and industry leaders.\n\n4. Risk Management: Develop comprehensive risk assessment and mitigation strategies.\n\n5. Regulatory Compliance: Stay informed about evolving regulations and ensure compliance frameworks are in place.",
   topic ++ " represents a significant opportunity for organizations willing to embrace innovation and adapt to changing market conditions. While challenges exist, the potential benefits far outweigh the risks for those who approach implementation strategically.\n\nSuccess in this domain requires a balanced approach that considers technological capabilities, market dynamics, regulatory requirements, and organizational readiness. Organizations that act decisively while maintaining flexibility will be best positioned to capitalize on the opportunities presented by " ++ topic ++ ".\n\nThe landscape will continue to evolve rapidly, making it essential for stakeholders to remain informed and agile in their approach. Regular reassessment of strategies and objectives will be crucial for long-term success in this dynamic environment."]

/-- Method `AIService._generate_demo_content`: the deterministic local fallback
template, an f-string of `topic` only (`self` is never read).  Each section is
its heading, a colon, a newline, then its body; sections are separated by one
blank line, exactly as in the source f-string. -/
def _generate_demo_content (_self : AIService) (topic : String) : String :=
  String.intercalate "\n\n"
    (List.zipWith (fun h b => h ++ ":\n" ++ b) demoSectionHeadings
      (demoSectionBodies topic))

/-- Method `AIService._generate_with_openai`: demo content when no client was
constructed; otherwise one API call — on an exception the inner `except`
returns demo content; on success, `content.strip() if content else demo`,
i.e. a `None` or empty (pre-strip) content field yields demo content and any
other content is returned stripped. -/
def _generate_with_openai (svc : AIService) (topic : String) (o : ApiOutcome) :
    String :=
  match svc.client with
  | none => _generate_demo_content svc topic
  | some _ =>
    match o with
    | .raises _ => _generate_demo_content svc topic
    | .returns none => _generate_demo_content svc topic
    | .returns (some content) =>
      if content = "" then _generate_demo_content svc topic
      else pyStrip content

/-- Method `AIService.generate_report_content`: provider path when a credential is
configured, demo content otherwise.  (Its `except` clause around
`_generate_with_openai` is unreachable: that call absorbs API failure
itself.) -/
def generate_report_content (svc : AIService) (topic : String) (o : ApiOutcome) :
    String :=
  match svc.openai_api_key with
  | some _ => _generate_with_openai svc topic o
  | none => _generate_demo_content svc topic

theorem strContains_self (t : String) : strContains t t :=
  ⟨[], [], by simp⟩

theorem strContains_append_left (s t x : String) :
    strContains s x → strContains (s ++ t) x := by
  rintro ⟨a, b, h⟩
  exact ⟨a, b ++ t.data, by simp [String.data_append, h]⟩

theorem strContains_append_right (s t x : String) :
    strContains t x → strContains (s ++ t) x := by
  rintro ⟨a, b, h⟩
  exact ⟨s.data ++ a, b, by simp [String.data_append, h]⟩

/-- C6: the fallback generator depends only on the topic: its output is
identical across any two service states (it reads nothing from `self` nor any
other state), so two calls with the same topic yield byte-identical output. -/
theorem demo_content_deterministic (svc svc' : AIService) (topic : String) :
    _generate_demo_content svc topic = _generate_demo_content svc' topic :=
  rfl

/-- C7: the fallback output is exactly the eight named sections in order, each
rendered as its heading followed by a colon, and every one of the eight
section bodies contains the topic string verbatim. -/
theorem demo_content_topic_in_every_section (svc : AIService) (topic : String) :
    _generate_demo_content svc topic =
      String.intercalate "\n\n"
        (List.zipWith (fun h b => h ++ ":\n" ++ b) demoSectionHeadings
          (demoSectionBodies topic)) ∧
    demoSectionHeadings =
      ["Executive Summary", "Introduction and Background",
       "Current State Analysis", "Key Findings and Insights",
       "Challenges and Opportunities", "Future Trends and Predictions",
       "Recommendations", "Conclusion"] ∧
    (demoSectionBodies topic).length = 8 ∧
    (∀ b ∈ demoSectionBodies topic, strContains b topic) := by
  refine ⟨rfl, rfl, rfl, ?_⟩
  intro b hb
  simp only [demoSectionBodies, List.mem_cons, List.not_mem_nil, or_false] at hb
  rcases hb with rfl | rfl | rfl | rfl | rfl | rfl | rfl | rfl
  · exact strContains_append_left _ _ _
      (strContains_append_right _ _ _ (strContains_self topic))
  · exact strContains_append_left _ _ _ (strContains_self topic)
  · exact strContains_append_left _ _ _
      (strContains_append_right _ _ _ (strContains_self topic))
  · exact strContains_append_left _ _ _
      (strContains_append_right _ _ _ (strContains_self topic))
  · exact strContains_append_left _ _ _
      (strContains_append_right _ _ _ (strContains_self topic))
  · exact strContains_append_left _ _ _
      (strContains_append_right _ _ _ (strContains_self topic))
  · exact strContains_append_left _ _ _
      (strContains_append_right _ _ _ (strContains_self topic))
  · exact strContains_append_left _ _ _
      (strContains_append_right _ _ _ (strContains_self topic))

/-- C1 counterexample: with a credential and a client configured, a successful
provider response consisting of one space is truthy before the strip, so the
code returns `" ".strip() = ""` — the empty string, not the fallback text.
The claim that an empty trimmed result triggers the fallback (never an empty
result) fails on the code. -/
theorem generate_content_whitespace_only_yields_empty :
    generate_report_content ⟨some "sk-test", some ()⟩ "Quantum Computing"
        (.returns (some " ")) = "" ∧
    _generate_demo_content ⟨some "sk-test", some ()⟩ "Quantum Computing" ≠ "" :=
  ⟨rfl, by decide⟩

/-- C1 (amended): `generate` always returns (never propagates provider
failure): it returns the fallback text when no provider credential is
configured, when no client was constructed, when the external call raises, or
when the returned content field is `None` or empty before trimming; any other
successful output is returned whitespace-trimmed — so whitespace-only provider
output is returned as the empty string rather than triggering the fallback. -/
theorem generate_content_degrade (svc : AIService) (topic : String)
    (o : ApiOutcome) :
    ((svc.openai_api_key = none ∨ svc.client = none ∨ (∃ m, o = .raises m) ∨
        o = .returns none ∨ o = .returns (some "")) →
      generate_report_content svc topic o = _generate_demo_content svc topic) ∧
    (∀ s, s ≠ "" → svc.openai_api_key ≠ none → svc.client ≠ none →
      o = .returns (some s) →
      generate_report_content svc topic o = pyStrip s) := by
  obtain ⟨key?, client?⟩ := svc
  constructor
  · rintro (h | h | ⟨m, rfl⟩ | rfl | rfl)
    · simp only at h
      subst h
      rfl
    · simp only at h
      subst h
      cases key? <;> rfl
    · cases key? <;> cases client? <;> rfl
    · cases key? <;> cases client? <;> rfl
    · cases key? <;> cases client? <;> rfl
  · rintro s hs hk hc rfl
    simp only at hk hc
    cases key? with
    | none => exact absurd rfl hk
    | some _ =>
      cases client? with
      | none => exact absurd rfl hc
      | some _ =>
        simp [generate_report_content, _generate_with_openai, hs]

/-- C1 witness: the amended theorem applied to a no-credential service, to a
raising call, and to a successful call returning `"  body  "`. -/
theorem generate_content_degrade_witness :
    generate_report_content ⟨none, none⟩ "T" (.returns (some "x")) =
      _generate_demo_content ⟨none, none⟩ "T" ∧
    generate_report_content ⟨some "sk", some ()⟩ "T" (.raises "boom") =
      _generate_demo_content ⟨some "sk", some ()⟩ "T" ∧
    generate_report_content ⟨some "sk", some ()⟩ "T" (.returns (some " body ")) =
      pyStrip " body " :=
  ⟨(generate_content_degrade ⟨none, none⟩ "T" (.returns (some "x"))).1
      (Or.inl rfl),
   (generate_content_degrade ⟨some "sk", some ()⟩ "T" (.raises "boom")).1
      (Or.inr (Or.inr (Or.inl ⟨"boom", rfl⟩))),
   (generate_content_degrade ⟨some "sk", some ()⟩ "T"
        (.returns (some " body "))).2 " body " (by decide)
      (by simp) (by simp) rfl⟩

/-! ### Data model (`backend/models.py`) and application state

`User` and `Report` are the two SQLAlchemy tables (`users` and `reports`,
with unique constraints on `users.email` and `users.username`); rendered
artifacts live on the filesystem under the `reports/` directory.  `AppState`
bundles the persistent state a request can observe or change.  The SQLAlchemy
session comes from `database.py`, which is absent from the repository
snapshot; commit behaviour on a constraint violation is modelled from the
spec (concurrent or duplicate signups racing on the same email or username
are rejected by the uniqueness constraint of the store, surfacing as a
database integrity error, not by application-level logic). -/

/-- A row of the `users` table (`models.py`, class `User`). -/
structure UserRec where
  id : Int
  email : String
  username : String
  hashed_password : String
  created_at : Nat
deriving DecidableEq

/-- A row of the `reports` table (`models.py`, class `Report`).  Defined by
the model layer; no handler in `main.py` ever constructs one. -/
structure ReportRec where
  id : Int
  user_id : Int
  topic : String
  filename : String
  file_path : String
  created_at : Nat
deriving DecidableEq

/-- A file written below `reports/` by `PDFGenerator.create_report`.
Modelled from the spec: the renderer persists one artifact derived from
topic, body text and author at the requested path. -/
structure RenderedFile where
  file_path : String
  topic : String
  content : String
  author : String
deriving DecidableEq

/-- The persistent state visible to the handlers in `main.py`: the two
database tables and the artifact directory. -/
structure AppState where
  users : List UserRec
  reports : List ReportRec
  files : List RenderedFile
deriving DecidableEq

/-- A request outcome other than a 2xx response: the `HTTPException`s raised
by the handlers, plus `uncaughtException` for a Python exception that escapes
a handler entirely (FastAPI converts it into a generic 500). -/
inductive ApiError where
  | badRequest (detail : String)
  | unauthorized (detail : String)
  | notFound (detail : String)
  | internalFailure (detail : String)
  | uncaughtException (exn : String)
deriving DecidableEq

/-- Dependency `get_current_user` of `main.py`: decode the bearer token; a `None` result becomes a
401 with detail `Invalid token`; an uncaught `ValueError` from
`decode_token` escapes the dependency. -/
def get_current_user (secretKey : String) (now : Nat) (tok : TokenStr) :
    Except ApiError Int :=
  match decode_token secretKey now tok with
  | .error (.valueError lit) =>
      .error (.uncaughtException ("ValueError: invalid literal for int: " ++ lit))
  | .ok none => .error (.unauthorized "Invalid token")
  | .ok (some uid) => .ok uid

/-- The id SQLAlchemy assigns to a freshly inserted user row
(autoincrement primary key: one more than the largest id in use). -/
def nextUserId (st : AppState) : Int :=
  1 + st.users.foldl (fun a u => max a u.id) 0

/-- Response body of `signup` and `login`: the bearer token and the public
profile. -/
structure AuthResp where
  access_token : TokenStr
  token_type : String
  id : Int
  email : String
  username : String
deriving DecidableEq

/-- Handler `signup` of `main.py`: reject with 400 `Email already registered` when a
row with the same email exists; otherwise hash the password (`hashed` is the
bcrypt oracle for `get_password_hash password`) and insert.  The handler
never checks the username; inserting a duplicate username violates the
unique constraint declared in `models.py`, and the resulting database
integrity error is caught by nothing in the handler.  (Commit behaviour
modelled from the spec; the failed insert leaves the store unchanged.) -/
def signup (secretKey : String) (now : Nat) (st : AppState)
    (email username _password hashed : String) :
    Except ApiError AuthResp × AppState :=
  if st.users.any (fun u => u.email == email) then
    (.error (.badRequest "Email already registered"), st)
  else if st.users.any (fun u => u.username == username) then
    (.error (.uncaughtException "IntegrityError"), st)
  else
    let uid := nextUserId st
    let newUser : UserRec := ⟨uid, email, username, hashed, now⟩
    (.ok ⟨encode_token secretKey uid now, "bearer", uid, email, username⟩,
     { st with users := st.users ++ [newUser] })

/-- Handler `login` of `main.py`: look up by email, verify the password against the
stored hash (`verify` is the bcrypt comparison oracle), 401 with detail
`Invalid credentials` on either failure. -/
def login (secretKey : String) (now : Nat) (st : AppState)
    (email password : String) (verify : String → String → Bool) :
    Except ApiError AuthResp × AppState :=
  match st.users.find? (fun u => u.email == email) with
  | none => (.error (.unauthorized "Invalid credentials"), st)
  | some u =>
    if verify password u.hashed_password then
      (.ok ⟨encode_token secretKey u.id now, "bearer", u.id, u.email, u.username⟩,
       st)
    else (.error (.unauthorized "Invalid credentials"), st)

/-- Handler `get_current_user_info` of `main.py` (route `/auth/me`): authenticate, look
the identity up, 404 when the row is gone. -/
def whoami (secretKey : String) (now : Nat) (st : AppState) (tok : TokenStr) :
    Except ApiError (Int × String × String) × AppState :=
  match get_current_user secretKey now tok with
  | .error e => (.error e, st)
  | .ok uid =>
    match st.users.find? (fun u => u.id == uid) with
    | none => (.error (.notFound "User not found"), st)
    | some u => (.ok (u.id, u.email, u.username), st)

/-- A CPython naive `datetime` as far as `strftime("%Y%m%d_%H%M%S")`
observes it. -/
structure PyDateTime where
  year : Nat
  month : Nat
  day : Nat
  hour : Nat
  minute : Nat
  second : Nat
deriving DecidableEq

/-- Zero-padding to two characters (`%m`, `%d`, `%H`, `%M`, `%S`). -/
def pad2 (n : Nat) : String :=
  if n < 10 then "0" ++ pyStrOfNat n else pyStrOfNat n

/-- Timestamp format `datetime.now().strftime("%Y%m%d_%H%M%S")` of `main.py`. -/
def strftime_YmdHMS (d : PyDateTime) : String :=
  pyStrOfNat d.year ++ pad2 d.month ++ pad2 d.day ++ "_" ++
    pad2 d.hour ++ pad2 d.minute ++ pad2 d.second

/-- The bounds `strftime` formatting relies on; every value
`datetime.now()` produces satisfies them. -/
def validDT (d : PyDateTime) : Prop :=
  1000 ≤ d.year ∧ d.year < 10000 ∧ d.month < 100 ∧ d.day < 100 ∧
    d.hour < 100 ∧ d.minute < 100 ∧ d.second < 100

instance (d : PyDateTime) : Decidable (validDT d) := by
  unfold validDT
  infer_instance

/-- Message text of the `AttributeError` raised by `user.username` when the user query
returned `None`. -/
def attributeErrorNoneUsername : String :=
  "\x27NoneType\x27 object has no attribute \x27username\x27"

/-- Success body of `generate_report`. -/
structure GenResp where
  message : String
  filename : String
  download_url : String
deriving DecidableEq

/-- Handler `generate_report` of `main.py`: authenticate, query the user row, request
AI content, format the timestamp, build `report_{username}_{timestamp}.pdf`,
render to `reports/{filename}`, return the filename and
`/download/{filename}`.  The whole body sits in one `try` whose
`except Exception` re-raises as a 500 with detail
`Error generating report: {str(e)}` — that catch-all receives both the
`AttributeError` from `user.username` when no row matched (the AI call has
already happened by then, but it is pure here, so the model branches on the
lookup first) and any renderer I/O failure (`render` is the renderer oracle,
`some msg` meaning `create_report` raised; renderer persistence modelled
from the spec).  The handler never inserts into the `reports` table. -/
def generate_report (secretKey : String) (svc : AIService) (st : AppState)
    (tok : TokenStr) (topic : String) (now : Nat) (dt : PyDateTime)
    (o : ApiOutcome) (render : Option String) :
    Except ApiError GenResp × AppState :=
  match get_current_user secretKey now tok with
  | .error e => (.error e, st)
  | .ok user_id =>
    match st.users.find? (fun u => u.id == user_id) with
    | none =>
      (.error (.internalFailure
        ("Error generating report: " ++ attributeErrorNoneUsername)), st)
    | some user =>
      let ai_content := generate_report_content svc topic o
      let timestamp := strftime_YmdHMS dt
      let filename := "report_" ++ user.username ++ "_" ++ timestamp ++ ".pdf"
      let file_path := "reports/" ++ filename
      match render with
      | some err =>
        (.error (.internalFailure ("Error generating report: " ++ err)), st)
      | none =>
        (.ok ⟨"Report generated successfully", filename,
            "/download/" ++ filename⟩,
         { st with files :=
            st.files ++ [⟨file_path, topic, ai_content, user.username⟩] })

/-- Success body of `download_report`: the `FileResponse` parameters. -/
structure FileResp where
  path : String
  filename : String
  media_type : String
deriving DecidableEq

/-- Handler `download_report` of `main.py`: authenticate (the resulting identity is
never used), then `os.path.exists("reports/" + filename)` decides between
the file response and a 404 with detail `File not found`.  Reads no table
and writes nothing. -/
def download_report (secretKey : String) (now : Nat) (st : AppState)
    (tok : TokenStr) (filename : String) : Except ApiError FileResp :=
  match get_current_user secretKey now tok with
  | .error e => .error e
  | .ok _user_id =>
    let file_path := "reports/" ++ filename
    if st.files.any (fun f => f.file_path == file_path) then
      .ok ⟨file_path, filename, "application/pdf"⟩
    else .error (.notFound "File not found")

/-- States reachable from the startup state (`create_tables` on a fresh
store plus an empty `reports/` directory) by any sequence of the
state-bearing boundary operations.  `download_report`, `/`, and `/health`
read only and appear as no-ops. -/
inductive Reachable : AppState → Prop where
  | init : Reachable ⟨[], [], []⟩
  | signup_step (key : String) (now : Nat) (st : AppState)
      (email username password hashed : String) :
      Reachable st →
      Reachable (signup key now st email username password hashed).2
  | login_step (key : String) (now : Nat) (st : AppState)
      (email password : String) (verify : String → String → Bool) :
      Reachable st → Reachable (login key now st email password verify).2
  | whoami_step (key : String) (now : Nat) (st : AppState) (tok : TokenStr) :
      Reachable st → Reachable (whoami key now st tok).2
  | generate_step (key : String) (svc : AIService) (st : AppState)
      (tok : TokenStr) (topic : String) (now : Nat) (dt : PyDateTime)
      (o : ApiOutcome) (render : Option String) :
      Reachable st →
      Reachable (generate_report key svc st tok topic now dt o render).2

/-- C3 counterexample: signing up with a fresh email but an already-taken
username is not rejected by the handler (which only checks the email); the
insert violates the unique constraint on `users.username` and the resulting
database integrity error escapes the handler as a generic 500 — not the
DuplicateIdentity (400) rejection the claim requires. -/
theorem signup_duplicate_username_escapes :
    signup "k" 5 ⟨[⟨1, "a@x.com", "bob", "h1", 0⟩], [], []⟩
        "b@x.com" "bob" "pw" "h2" =
      (.error (.uncaughtException "IntegrityError"),
       ⟨[⟨1, "a@x.com", "bob", "h1", 0⟩], [], []⟩) := by
  rfl

/-- C3 (amended): a signup whose email already exists fails with the
DuplicateIdentity rejection (400, `Email already registered`) and leaves the
user store unchanged; a signup whose email is fresh but whose username
already exists fails with an uncaught database integrity error (a generic
500), not DuplicateIdentity, and also leaves the user store unchanged.  In
neither case is a second record created. -/
theorem signup_duplicate_rejected (key : String) (now : Nat) (st : AppState)
    (email username password hashed : String) :
    ((∃ r ∈ st.users, r.email = email) →
      signup key now st email username password hashed =
        (.error (.badRequest "Email already registered"), st)) ∧
    ((¬ ∃ r ∈ st.users, r.email = email) →
      (∃ r ∈ st.users, r.username = username) →
      signup key now st email username password hashed =
        (.error (.uncaughtException "IntegrityError"), st)) := by
  constructor
  · rintro ⟨r, hr, he⟩
    have hany : st.users.any (fun u => u.email == email) = true := by
      rw [List.any_eq_true]
      exact ⟨r, hr, by simp [he]⟩
    simp [signup, hany]
  · rintro hne ⟨r, hr, hu⟩
    have h1 : st.users.any (fun u => u.email == email) = false := by
      rw [List.any_eq_false]
      intro x hx
      simp only [beq_iff_eq]
      exact fun hxe => hne ⟨x, hx, hxe⟩
    have h2 : st.users.any (fun u => u.username == username) = true := by
      rw [List.any_eq_true]
      exact ⟨r, hr, by simp [hu]⟩
    simp [signup, h1, h2]

/-- C3 witness: the amended theorem applied to a store holding one user
`bob` with email `a@x.com`, once with a duplicate email and once with a
duplicate username. -/
theorem signup_duplicate_rejected_witness :
    signup "k" 5 ⟨[⟨1, "a@x.com", "bob", "h1", 0⟩], [], []⟩
        "a@x.com" "carol" "pw" "h2" =
      (.error (.badRequest "Email already registered"),
       ⟨[⟨1, "a@x.com", "bob", "h1", 0⟩], [], []⟩) ∧
    signup "k" 5 ⟨[⟨1, "a@x.com", "bob", "h1", 0⟩], [], []⟩
        "b@x.com" "bob" "pw" "h2" =
      (.error (.uncaughtException "IntegrityError"),
       ⟨[⟨1, "a@x.com", "bob", "h1", 0⟩], [], []⟩) :=
  ⟨(signup_duplicate_rejected "k" 5 ⟨[⟨1, "a@x.com", "bob", "h1", 0⟩], [], []⟩
      "a@x.com" "carol" "pw" "h2").1 ⟨⟨1, "a@x.com", "bob", "h1", 0⟩, by simp, rfl⟩,
   (signup_duplicate_rejected "k" 5 ⟨[⟨1, "a@x.com", "bob", "h1", 0⟩], [], []⟩
      "b@x.com" "bob" "pw" "h2").2 (by decide)
      ⟨⟨1, "a@x.com", "bob", "h1", 0⟩, by simp, rfl⟩⟩

/-- Behaviour of `download_report` after successful authentication, whatever the
identity. -/
theorem download_report_auth_ok (key : String) (now : Nat) (st : AppState)
    (u : Int) (tok : TokenStr) (fn : String)
    (h : get_current_user key now tok = .ok u) :
    download_report key now st tok fn =
      if st.files.any (fun f => f.file_path == "reports/" ++ fn) then
        .ok ⟨"reports/" ++ fn, fn, "application/pdf"⟩
      else .error (.notFound "File not found") := by
  unfold download_report
  rw [h]

/-- C4: for any two valid tokens (whatever identities they carry) and any
filename, the download operation returns the same result; it succeeds exactly
when a file of that name exists in the content store, and fails with the 404
NotFound error otherwise — possession of some valid token is the only
authorization requirement. -/
theorem download_no_ownership_binding (key : String) (now : Nat)
    (st : AppState) (tok tok' : TokenStr) (fn : String) (u u' : Int)
    (h : get_current_user key now tok = .ok u)
    (h' : get_current_user key now tok' = .ok u') :
    download_report key now st tok fn = download_report key now st tok' fn ∧
    ((∃ r, download_report key now st tok fn = .ok r) ↔
      st.files.any (fun f => f.file_path == "reports/" ++ fn) = true) ∧
    (st.files.any (fun f => f.file_path == "reports/" ++ fn) = false →
      download_report key now st tok fn = .error (.notFound "File not found")) := by
  rw [download_report_auth_ok key now st u tok fn h,
    download_report_auth_ok key now st u' tok' fn h']
  refine ⟨rfl, ?_, ?_⟩
  · by_cases hc : st.files.any (fun f => f.file_path == "reports/" ++ fn) = true
    · rw [if_pos hc]
      exact ⟨fun _ => hc, fun _ => ⟨_, rfl⟩⟩
    · rw [if_neg hc]
      constructor
      · rintro ⟨r, hr⟩
        exact absurd hr (by simp)
      · intro hT
        exact absurd hT hc
  · intro hc
    rw [if_neg (by simp [hc])]

/-- C4 witness: two different users (ids 1 and 2) downloading the same
existing artifact, and one of them asking for a missing artifact. -/
theorem download_no_ownership_binding_witness :
    download_report "k" 0
        ⟨[], [], [⟨"reports/a.pdf", "T", "body", "alice"⟩]⟩
        (.signed ⟨1800, 0, "1"⟩ "k") "a.pdf" =
      download_report "k" 0
        ⟨[], [], [⟨"reports/a.pdf", "T", "body", "alice"⟩]⟩
        (.signed ⟨1800, 0, "2"⟩ "k") "a.pdf" ∧
    download_report "k" 0
        ⟨[], [], [⟨"reports/a.pdf", "T", "body", "alice"⟩]⟩
        (.signed ⟨1800, 0, "1"⟩ "k") "missing.pdf" =
      .error (.notFound "File not found") :=
  ⟨(download_no_ownership_binding "k" 0
      ⟨[], [], [⟨"reports/a.pdf", "T", "body", "alice"⟩]⟩
      (.signed ⟨1800, 0, "1"⟩ "k") (.signed ⟨1800, 0, "2"⟩ "k") "a.pdf" 1 2
      rfl rfl).1,
   (download_no_ownership_binding "k" 0
      ⟨[], [], [⟨"reports/a.pdf", "T", "body", "alice"⟩]⟩
      (.signed ⟨1800, 0, "1"⟩ "k") (.signed ⟨1800, 0, "2"⟩ "k") "missing.pdf" 1 2
      rfl rfl).2.2 (by decide)⟩

theorem signup_reports_frame (key : String) (now : Nat) (st : AppState)
    (email username password hashed : String) :
    (signup key now st email username password hashed).2.reports =
      st.reports := by
  unfold signup
  split_ifs <;> rfl

theorem login_state_frame (key : String) (now : Nat) (st : AppState)
    (email password : String) (verify : String → String → Bool) :
    (login key now st email password verify).2 = st := by
  unfold login
  split
  · rfl
  · split <;> rfl

theorem whoami_state_frame (key : String) (now : Nat) (st : AppState)
    (tok : TokenStr) : (whoami key now st tok).2 = st := by
  unfold whoami
  split
  · rfl
  · split <;> rfl

theorem generate_report_reports_frame (key : String) (svc : AIService)
    (st : AppState) (tok : TokenStr) (topic : String) (now : Nat)
    (dt : PyDateTime) (o : ApiOutcome) (render : Option String) :
    (generate_report key svc st tok topic now dt o render).2.reports =
      st.reports := by
  unfold generate_report
  split
  · rfl
  · split
    · rfl
    · split <;> rfl

/-- C9: although the model layer defines a `Report` record, no boundary
operation ever inserts into the `reports` table — from the startup state the
table is empty in every reachable state (`generate_report` persists only the
rendered file). -/
theorem reports_table_always_empty (st : AppState) (h : Reachable st) :
    st.reports = [] := by
  induction h with
  | init => rfl
  | signup_step key now st email username password hashed _ ih =>
    rw [signup_reports_frame]; exact ih
  | login_step key now st email password verify _ ih =>
    rw [login_state_frame]; exact ih
  | whoami_step key now st tok _ ih =>
    rw [whoami_state_frame]; exact ih
  | generate_step key svc st tok topic now dt o render _ ih =>
    rw [generate_report_reports_frame]; exact ih

/-- C9 witness: the state after a signup followed by a successful report
generation still has an empty `reports` table. -/
theorem reports_table_always_empty_witness :
    (generate_report "k" ⟨none, none⟩
        (signup "k" 0 ⟨[], [], []⟩ "a@x.com" "alice" "pw" "h1").2
        (.signed ⟨1800, 0, "1"⟩ "k") "T" 0 ⟨2025, 6, 7, 8, 9, 10⟩
        (.returns none) none).2.reports = [] :=
  reports_table_always_empty _
    (Reachable.generate_step "k" ⟨none, none⟩
      (signup "k" 0 ⟨[], [], []⟩ "a@x.com" "alice" "pw" "h1").2
      (.signed ⟨1800, 0, "1"⟩ "k") "T" 0 ⟨2025, 6, 7, 8, 9, 10⟩
      (.returns none) none
      (Reachable.signup_step "k" 0 ⟨[], [], []⟩ "a@x.com" "alice" "pw" "h1"
        Reachable.init))

/-- C10: a generate-report request with a valid token whose identifier
matches no user row fails inside the catch-all handler: the `AttributeError`
from dereferencing the missing user is converted into the generic 500
InternalFailure message, never the 404 NotFound error, and the state is
unchanged. -/
theorem generate_report_missing_user_internal (key : String)
    (svc : AIService) (st : AppState) (tok : TokenStr) (topic : String)
    (now : Nat) (dt : PyDateTime) (o : ApiOutcome) (render : Option String)
    (uid : Int)
    (hauth : get_current_user key now tok = .ok uid)
    (hmiss : st.users.find? (fun u => u.id == uid) = none) :
    generate_report key svc st tok topic now dt o render =
      (.error (.internalFailure
        ("Error generating report: " ++ attributeErrorNoneUsername)), st) ∧
    ∀ d, (generate_report key svc st tok topic now dt o render).1 ≠
      .error (.notFound d) := by
  have hmain : generate_report key svc st tok topic now dt o render =
      (.error (.internalFailure
        ("Error generating report: " ++ attributeErrorNoneUsername)), st) := by
    unfold generate_report
    rw [hauth]
    simp [hmiss]
  refine ⟨hmain, ?_⟩
  intro d h
  rw [hmain] at h
  simp at h

/-- C10 witness: a valid token for id 1 against an empty user store. -/
theorem generate_report_missing_user_internal_witness :
    generate_report "k" ⟨none, none⟩ ⟨[], [], []⟩
        (.signed ⟨1800, 0, "1"⟩ "k") "T" 0 ⟨2025, 6, 7, 8, 9, 10⟩
        (.returns none) none =
      (.error (.internalFailure
        ("Error generating report: " ++ attributeErrorNoneUsername)),
       ⟨[], [], []⟩) :=
  (generate_report_missing_user_internal "k" ⟨none, none⟩ ⟨[], [], []⟩
    (.signed ⟨1800, 0, "1"⟩ "k") "T" 0 ⟨2025, 6, 7, 8, 9, 10⟩
    (.returns none) none 1 rfl rfl).1

theorem natDigitsRev_length_lt_ten {n : Nat} (h : n < 10) :
    (natDigitsRev n).length = 1 := by
  rw [natDigitsRev_eq, if_pos h]
  rfl

theorem natDigitsRev_length_bounds (k : Nat) :
    ∀ n, 10 ^ k ≤ n → n < 10 ^ (k + 1) → (natDigitsRev n).length = k + 1 := by
  induction k with
  | zero =>
    intro n _ h2
    norm_num at h2
    exact natDigitsRev_length_lt_ten h2
  | succ k ih =>
    intro n h1 h2
    have hpow : (10 : Nat) ^ 1 ≤ 10 ^ (k + 1) :=
      Nat.pow_le_pow_right (by omega) (by omega)
    have hge : 10 ≤ n := by
      rw [pow_one] at hpow
      omega
    rw [natDigitsRev_eq, if_neg (by omega)]
    simp only [List.length_cons]
    rw [ih (n / 10) ?_ ?_]
    · rw [Nat.le_div_iff_mul_le (by omega)]
      calc 10 ^ k * 10 = 10 ^ (k + 1) := (pow_succ 10 k).symm
        _ ≤ n := h1
    · rw [Nat.div_lt_iff_lt_mul (by omega)]
      calc n < 10 ^ (k + 2) := h2
        _ = 10 ^ (k + 1) * 10 := pow_succ 10 (k + 1)

theorem pyStrOfNat_data_length (n : Nat) :
    (pyStrOfNat n).data.length = (natDigitsRev n).length := by
  simp [pyStrOfNat]

theorem pad2_shape {n : Nat} (h : n < 100) :
    (pad2 n).data.length = 2 ∧ ∀ c ∈ (pad2 n).data, c.isDigit = true := by
  unfold pad2
  split
  · rename_i h10
    have hdat : ("0" ++ pyStrOfNat n).data = '0' :: (pyStrOfNat n).data := rfl
    rw [hdat]
    constructor
    · rw [List.length_cons, pyStrOfNat_data_length, natDigitsRev_length_lt_ten h10]
    · intro c hc
      rcases List.mem_cons.mp hc with rfl | hc
      · decide
      · exact pyStrOfNat_data_digits n c hc
  · rename_i h10
    constructor
    · rw [pyStrOfNat_data_length,
        natDigitsRev_length_bounds 1 n (by norm_num; omega) (by norm_num; omega)]
    · exact pyStrOfNat_data_digits n

theorem strftime_shape (d : PyDateTime) (h : validDT d) :
    (strftime_YmdHMS d).data.length = 15 ∧
    ((strftime_YmdHMS d).data.filter Char.isDigit).length = 14 := by
  obtain ⟨hy1, hy2, hmo, hday, hhr, hmin, hsec⟩ := h
  have hylen : (pyStrOfNat d.year).data.length = 4 := by
    rw [pyStrOfNat_data_length,
      natDigitsRev_length_bounds 3 d.year (by norm_num; omega) (by norm_num; omega)]
  have hydig := pyStrOfNat_data_digits d.year
  have hMo := pad2_shape hmo
  have hDay := pad2_shape hday
  have hHr := pad2_shape hhr
  have hMin := pad2_shape hmin
  have hSec := pad2_shape hsec
  have hdata : (strftime_YmdHMS d).data =
      (pyStrOfNat d.year).data ++ (pad2 d.month).data ++ (pad2 d.day).data ++
        ['_'] ++ (pad2 d.hour).data ++ (pad2 d.minute).data ++
        (pad2 d.second).data := rfl
  constructor
  · rw [hdata]
    simp [List.length_append, hylen, hMo.1, hDay.1, hHr.1, hMin.1, hSec.1]
  · rw [hdata]
    simp only [List.filter_append]
    rw [List.filter_eq_self.mpr hydig, List.filter_eq_self.mpr hMo.2,
      List.filter_eq_self.mpr hDay.2, List.filter_eq_self.mpr hHr.2,
      List.filter_eq_self.mpr hMin.2, List.filter_eq_self.mpr hSec.2,
      show List.filter Char.isDigit ['_'] = [] from by decide]
    simp [List.length_append, hylen, hMo.1, hDay.1, hHr.1, hMin.1, hSec.1]

/-- C8: a generate-report request by an authenticated user whose row exists,
with the renderer succeeding, returns the filename
`report_{username}_{strftime timestamp}.pdf` and the retrieval path
`/download/` followed by that filename; the artifact is recorded in the
content store under `reports/{filename}`; and for any in-range datetime the
timestamp is the 15-character `YYYYMMDD_HHMMSS` form: 14 digit characters
around one underscore. -/
theorem generate_report_success_shape (key : String) (svc : AIService)
    (st : AppState) (tok : TokenStr) (topic : String) (now : Nat)
    (dt : PyDateTime) (o : ApiOutcome) (uid : Int) (user : UserRec)
    (hauth : get_current_user key now tok = .ok uid)
    (huser : st.users.find? (fun u => u.id == uid) = some user)
    (hdt : validDT dt) :
    generate_report key svc st tok topic now dt o none =
      (.ok ⟨"Report generated successfully",
          "report_" ++ user.username ++ "_" ++ strftime_YmdHMS dt ++ ".pdf",
          "/download/" ++
            ("report_" ++ user.username ++ "_" ++ strftime_YmdHMS dt ++ ".pdf")⟩,
       { st with files := st.files ++
          [⟨"reports/" ++
              ("report_" ++ user.username ++ "_" ++ strftime_YmdHMS dt ++ ".pdf"),
            topic, generate_report_content svc topic o, user.username⟩] }) ∧
    (generate_report key svc st tok topic now dt o none).2.files.any
      (fun f => f.file_path ==
        "reports/" ++
          ("report_" ++ user.username ++ "_" ++ strftime_YmdHMS dt ++ ".pdf")) =
      true ∧
    (strftime_YmdHMS dt).data.length = 15 ∧
    ((strftime_YmdHMS dt).data.filter Char.isDigit).length = 14 := by
  have hmain : generate_report key svc st tok topic now dt o none =
      (.ok ⟨"Report generated successfully",
          "report_" ++ user.username ++ "_" ++ strftime_YmdHMS dt ++ ".pdf",
          "/download/" ++
            ("report_" ++ user.username ++ "_" ++ strftime_YmdHMS dt ++ ".pdf")⟩,
       { st with files := st.files ++
          [⟨"reports/" ++
              ("report_" ++ user.username ++ "_" ++ strftime_YmdHMS dt ++ ".pdf"),
            topic, generate_report_content svc topic o, user.username⟩] }) := by
    unfold generate_report
    rw [hauth]
    simp [huser]
  refine ⟨hmain, ?_, (strftime_shape dt hdt).1, (strftime_shape dt hdt).2⟩
  rw [hmain]
  simp [List.any_append]

/-- C8 witness: user `alice` (id 1) with a valid token generating a report on
`Quantum Computing` at 2025-06-07 08:09:10; the handle and path have the
required shape and the timestamp evaluates to `20250607_080910`. -/
theorem generate_report_success_shape_witness :
    (generate_report "k" ⟨none, none⟩
        ⟨[⟨1, "a@x.com", "alice", "h1", 0⟩], [], []⟩
        (.signed ⟨1800, 0, "1"⟩ "k") "Quantum Computing" 0
        ⟨2025, 6, 7, 8, 9, 10⟩ (.returns none) none).1 =
      .ok ⟨"Report generated successfully",
        "report_" ++ "alice" ++ "_" ++ strftime_YmdHMS ⟨2025, 6, 7, 8, 9, 10⟩ ++
          ".pdf",
        "/download/" ++
          ("report_" ++ "alice" ++ "_" ++ strftime_YmdHMS ⟨2025, 6, 7, 8, 9, 10⟩ ++
            ".pdf")⟩ ∧
    strftime_YmdHMS ⟨2025, 6, 7, 8, 9, 10⟩ = "20250607_080910" := by
  have H := generate_report_success_shape "k" ⟨none, none⟩
    ⟨[⟨1, "a@x.com", "alice", "h1", 0⟩], [], []⟩
    (.signed ⟨1800, 0, "1"⟩ "k") "Quantum Computing" 0
    ⟨2025, 6, 7, 8, 9, 10⟩ (.returns none) 1 ⟨1, "a@x.com", "alice", "h1", 0⟩
    rfl rfl (by decide)
  exact ⟨by rw [H.1], by decide⟩

/-- C7 witness: the theorem applied at topic `Quantum Computing` yields the
verbatim-containment fact for the first section body. -/
theorem demo_content_topic_witness :
    strContains ((demoSectionBodies "Quantum Computing").getD 0 "")
      "Quantum Computing" :=
  (demo_content_topic_in_every_section ⟨none, none⟩ "Quantum Computing").2.2.2
    ((demoSectionBodies "Quantum Computing").getD 0 "")
    (by simp [demoSectionBodies])
